import Mathlib

/-!
Shallow embedding of the asynchronous logging core of the `tr1v3r/pkg`
repository (package `log`): the `Level` enum, the `TextFormatter`, the two
asynchronous handlers (`ConsoleHandler`, `FileHandler` with time-based file
rotation), and the `baseLogger` fan-out `Close`.

Modelling conventions:
* Go `time.Time` values are modelled as seconds since the Unix epoch
  (`Nat`, UTC).  Go's `Truncate(24h)`/`Truncate(Hour)` align with UTC
  day/hour boundaries because Go's internal zero time (Jan 1, year 1 UTC)
  is a whole multiple of 24h away from the Unix epoch.
* A Go channel of capacity 8192 is modelled as a FIFO `List String`
  together with a `chClosed` flag; the one-shot `closed` signal channel is
  the `closedSig` flag.  A Go runtime panic is modelled explicitly
  (`GoResult.panic` / `OutputResult.panicked`).
* The bytes written to the handler's sink are modelled as the ordered list
  `sink : List String` of written messages; sink writes are modelled as
  succeeding (runtime write errors go to stderr in the source and do not
  change control flow).
* `Output`'s `select` between `h.ch <- msg` and `<-h.closed` follows Go
  select semantics: a send on a closed channel counts as a ready case and
  panics when the scheduler picks it; the scheduler's choice between two
  ready cases is the explicit `pickSend` parameter.
-/

namespace PkgLog

/-! ## Level (src/log/level.go) -/

/-- Go: `type Level uint32`. -/
abbrev Level := Nat

def TraceLevel : Level := 0
def DebugLevel : Level := 1
def InfoLevel : Level := 2
def WarnLevel : Level := 3
def ErrorLevel : Level := 4
def FatalLevel : Level := 5
def PanicLevel : Level := 6

/-- Go: `func (l Level) String() string`. -/
def Level.string (l : Level) : String :=
  if l = TraceLevel then "Trace"
  else if l = DebugLevel then "Debug"
  else if l = InfoLevel then "Info"
  else if l = WarnLevel then "Warn"
  else if l = ErrorLevel then "Error"
  else if l = FatalLevel then "Fatal"
  else if l = PanicLevel then "Panic"
  else ""

/-- Go: `func (l Level) Color() int`. -/
def Level.color (l : Level) : Nat :=
  if l = TraceLevel then 45
  else if l = DebugLevel then 39
  else if l = InfoLevel then 33
  else if l = WarnLevel then 148
  else if l = ErrorLevel then 161
  else if l = FatalLevel then 160
  else if l = PanicLevel then 196
  else 0

/-! ## fmt.Sprintf model (Go standard library)

Only the `%s` verb with string arguments is exercised by the formatter
claims; the model substitutes each `%s` by the next argument, and renders
Go's `%!s(MISSING)` when arguments run out. -/

def sprintfAux : List Char → List String → List Char
  | [], _ => []
  | '%' :: 's' :: rest, a :: as => a.toList ++ sprintfAux rest as
  | '%' :: 's' :: rest, [] => "%!s(MISSING)".toList ++ sprintfAux rest []
  | c :: rest, as => c :: sprintfAux rest as

/-- Model of `fmt.Sprintf` restricted to `%s` verbs. -/
def sprintf (format : String) (args : List String) : String :=
  String.mk (sprintfAux format.toList args)

/-! ## TextFormatter (src/log/console.go lines 143-210) -/

structure TextFormatter where
  color : Bool
deriving Repr, DecidableEq

/-- Go: `func NewTextFormatter(color bool) *TextFormatter`. -/
def NewTextFormatter (color : Bool) : TextFormatter := ⟨color⟩

/-- Go: `func (f *TextFormatter) Format(level, ctx, format, args...) string`.

The call-time `time.Now().Format(time.RFC3339)` is the explicit `now`
parameter; `getLogID ctx` (the `log_id` value of the context, `""` when the
context is nil or carries no string `log_id`) is the explicit `logID`
parameter. -/
def TextFormatter.format (f : TextFormatter) (now : String) (level : Level)
    (logID : String) (format : String) (args : List String) : String :=
  (if f.color then "\x1b[38;5;" ++ toString level.color ++ "m" else "")
    ++ now ++ " "
    ++ "[" ++ level.string ++ "]" ++ " "
    ++ (if logID ≠ "" then logID ++ " " else "")
    ++ (if args.length > 0 then sprintf format args else format)
    ++ (if f.color then "\x1b[0m" else "")
    ++ "\n"

/-! ## String containment helper (for stating "contains the substring") -/

def prefixCheck : List Char → List Char → Bool
  | [], _ => true
  | _ :: _, [] => false
  | a :: as, b :: bs => a = b && prefixCheck as bs

def infixCheck (sub : List Char) : List Char → Bool
  | [] => prefixCheck sub []
  | c :: rest => prefixCheck sub (c :: rest) || infixCheck sub rest

/-- `strContainsSub s sub = true` iff `sub` occurs as a substring of `s`. -/
def strContainsSub (s sub : String) : Bool :=
  infixCheck sub.toList s.toList

/-! ## Go runtime outcomes -/

/-- Outcome of a Go call that may panic. -/
inductive GoResult (α : Type) where
  | ok (a : α)
  | panic (msg : String)
deriving Repr, DecidableEq

/-- Outcome of one `Output` call (src/log/console.go lines 69-86,
src/unnamed/part_011 lines 131-148):
* `filtered`: `level < h.level`, dropped before formatting;
* `enqueued h'`: the `select` took `h.ch <- msg`;
* `droppedClosed`: the `select` took `<-h.closed` and dropped the message;
* `panicked`: the `select` took the send case on a closed channel
  (Go: run-time panic "send on closed channel");
* `blocked`: no `select` case is ready, the caller blocks. -/
inductive OutputResult (H : Type) where
  | filtered
  | enqueued (h : H)
  | droppedClosed
  | panicked
  | blocked
deriving Repr, DecidableEq

/-- Channel capacity, Go: `make(chan []byte, 8192)`. -/
def chCap : Nat := 8192

/-! ## ConsoleHandler (src/log/console.go) -/

structure ConsoleHandler where
  /-- the `color` flag of `h.formatter` (a `TextFormatter`) -/
  color : Bool
  level : Level
  /-- pending messages of the buffered channel `h.ch`, FIFO -/
  ch : List String
  /-- whether `close(h.ch)` has been executed -/
  chClosed : Bool
  /-- whether `close(h.closed)` has been executed (`h.close()`) -/
  closedSig : Bool
  /-- ordered messages written to `h.out` -/
  sink : List String
deriving Repr, DecidableEq

/-- Go: `func NewConsoleHandler(level Level) *ConsoleHandler`. -/
def NewConsoleHandler (level : Level) : ConsoleHandler :=
  { color := true   -- NewTextFormatter(true)
    level := level
    ch := []
    chClosed := false
    closedSig := false
    sink := [] }

/-- The `select { case h.ch <- []byte(msg): ... case <-h.closed: ... }` of
`Output`, following Go select semantics.  A send on a closed channel is a
ready case that panics when chosen; a send on an open channel is ready when
the buffer has room; `<-h.closed` is ready once `close(h.closed)` ran.
`pickSend` is the scheduler's choice when both cases are ready. -/
def selectSend (h : ConsoleHandler) (msg : String) (pickSend : Bool) :
    OutputResult ConsoleHandler :=
  let sendReady := h.chClosed || decide (h.ch.length < chCap)
  let recvReady := h.closedSig
  if sendReady && recvReady then
    if pickSend then
      if h.chClosed then .panicked
      else .enqueued { h with ch := h.ch ++ [msg] }
    else .droppedClosed
  else if sendReady then
    if h.chClosed then .panicked
    else .enqueued { h with ch := h.ch ++ [msg] }
  else if recvReady then .droppedClosed
  else .blocked

/-- Go: `func (h *ConsoleHandler) Output(level, ctx, format, args...)`
(src/log/console.go lines 69-86).  The lazy `h.once.Do(go h.serve())` start
has no effect on the sequential state; `now` and `logID` are the call-time
inputs of `h.formatter.Format` (see `TextFormatter.format`). -/
def ConsoleHandler.output (h : ConsoleHandler) (now : String) (level : Level)
    (logID : String) (format : String) (args : List String)
    (pickSend : Bool) : OutputResult ConsoleHandler :=
  if level < h.level then .filtered
  else
    let msg := (NewTextFormatter h.color).format now level logID format args
    selectSend h msg pickSend

/-- Writing a queue of messages to the sink front-to-back (the body of one
consumer's drain of the closed channel). -/
def drainLoop (sink : List String) : List String → List String
  | [] => sink
  | m :: rest => drainLoop (sink ++ [m]) rest

/-- Go: `func (h *ConsoleHandler) Close() error`
(src/log/console.go lines 119-124): `close(h.ch)` — a panic if the channel
is already closed — then `h.Flush()` and waiting on `<-h.closed`.  This
function captures the schedule in which the remaining queue is fully
drained before `Close` returns (it is used below only for the double-close
panic and for the post-close flag state, which are the same in every
schedule); the general interleaving of the concurrent `Flush` and `serve`
consumers during `Close` is modelled by `CloseRace` further down. -/
def ConsoleHandler.closeHandler (h : ConsoleHandler) :
    GoResult ConsoleHandler :=
  if h.chClosed then .panic "close of closed channel"
  else
    .ok { h with
          chClosed := true
          ch := []
          sink := drainLoop h.sink h.ch
          closedSig := true }

/-! ## Time model (Go time.Time, UTC, seconds since the Unix epoch)

Conversions between day numbers and civil dates use the standard
era-based calendar algorithms; Go's `time.Date` normalization of
out-of-range days (e.g. Feb 29 of a non-leap year becoming Mar 1) is
matched by the linear extrapolation of `daysFromCivil` in its day
argument. -/

def secsPerHour : Nat := 3600
def secsPerDay : Nat := 86400

/-- Days since 1970-01-01 of the instant `t`. -/
def epochDays (t : Nat) : Nat := t / secsPerDay

/-- Civil date (year, month, day) of a day number (days since 1970-01-01). -/
def civilFromDays (z : Nat) : Nat × Nat × Nat :=
  let z := z + 719468
  let era := z / 146097
  let doe := z % 146097
  let yoe := (doe - doe / 1460 + doe / 36524 - doe / 146097) / 365
  let y := yoe + era * 400
  let doy := doe - (365 * yoe + yoe / 4 - yoe / 100)
  let mp := (5 * doy + 2) / 153
  let d := doy - (153 * mp + 2) / 5 + 1
  let m := if mp < 10 then mp + 3 else mp - 9
  (if m ≤ 2 then y + 1 else y, m, d)

/-- Day number (days since 1970-01-01) of a civil date; linear in `d`,
which matches Go's `time.Date` day normalization. -/
def daysFromCivil (y m d : Nat) : Nat :=
  let y' := if m ≤ 2 then y - 1 else y
  let era := y' / 400
  let yoe := y' % 400
  let mp := if 2 < m then m - 3 else m + 9
  let doy := (153 * mp + 2) / 5 + d - 1
  let doe := yoe * 365 + yoe / 4 - yoe / 100 + doy
  era * 146097 + doe - 719468

/-- Go `Weekday()` (Sunday = 0) of the day number `z`
(1970-01-01 was a Thursday). -/
def weekdayOfDay (z : Nat) : Nat := (z + 4) % 7

/-- Go: `func startOfWeek(t time.Time) time.Time`
(src/unnamed/part_011 lines 350-360): Monday 00:00 of the week of `t`. -/
def startOfWeek (t : Nat) : Nat :=
  let z := epochDays t
  let weekday := weekdayOfDay z
  let weekday := if weekday = 0 then 7 else weekday
  let daysToSubtract := weekday - 1
  (z - daysToSubtract) * secsPerDay

/-- Go: `func startOfMonth(t time.Time) time.Time`
(src/unnamed/part_011 lines 363-365). -/
def startOfMonth (t : Nat) : Nat :=
  let ymd := civilFromDays (epochDays t)
  daysFromCivil ymd.1 ymd.2.1 1 * secsPerDay

/-- Go: `now.ISOWeek()` — ISO 8601 year and week of the instant `t`
(nearest-Thursday rule). -/
def isoWeek (t : Nat) : Nat × Nat :=
  let z := epochDays t
  let wd := weekdayOfDay z
  let isoWd := if wd = 0 then 7 else wd
  let thursday := z + 4 - isoWd
  let ymd := civilFromDays thursday
  let jan1 := daysFromCivil ymd.1 1 1
  (ymd.1, (thursday - jan1) / 7 + 1)

/-- Go: `t.AddDate(100, 0, 0)` — same civil date 100 years later,
normalized, keeping the time of day. -/
def addYears100 (t : Nat) : Nat :=
  let ymd := civilFromDays (epochDays t)
  daysFromCivil (ymd.1 + 100) ymd.2.1 ymd.2.2 * secsPerDay + t % secsPerDay

/-- Zero-pad a number to at least two digits (Go layouts `01`, `02`, `15`,
`04`, `05`). -/
def pad2 (n : Nat) : String :=
  if n < 10 then "0" ++ toString n else toString n

/-- Zero-pad a year to at least four digits (Go layout `2006`). -/
def pad4 (n : Nat) : String :=
  if n < 10 then "000" ++ toString n
  else if n < 100 then "00" ++ toString n
  else if n < 1000 then "0" ++ toString n
  else toString n

/-- Go layout `2006-01-02` at the instant `t`. -/
def formatDate (t : Nat) : String :=
  let ymd := civilFromDays (epochDays t)
  pad4 ymd.1 ++ "-" ++ pad2 ymd.2.1 ++ "-" ++ pad2 ymd.2.2

/-- Go layout `2006-01-02_15` at the instant `t`. -/
def formatDateHour (t : Nat) : String :=
  formatDate t ++ "_" ++ pad2 (t % secsPerDay / secsPerHour)

/-- Go layout `2006-01` at the instant `t`. -/
def formatYearMonth (t : Nat) : String :=
  let ymd := civilFromDays (epochDays t)
  pad4 ymd.1 ++ "-" ++ pad2 ymd.2.1

/-- Go layout `2006-01-02_15-04-05` at the instant `t`. -/
def formatDateTimeFull (t : Nat) : String :=
  formatDateHour t ++ "-" ++ pad2 (t % secsPerHour / 60) ++ "-" ++ pad2 (t % 60)

/-! ## Path helpers (Go path/filepath, strings) -/

def suffixCheck (sub l : List Char) : Bool :=
  prefixCheck sub.reverse l.reverse

def filepathExtRev : List Char → List Char → String
  | _, [] => ""
  | acc, c :: rest =>
    if c = '/' then ""
    else if c = '.' then String.mk ('.' :: acc)
    else filepathExtRev (c :: acc) rest

/-- Go: `filepath.Ext(name)` — the suffix beginning at the final dot in the
final path element, `""` if there is none. -/
def filepathExt (name : String) : String :=
  filepathExtRev [] name.toList.reverse

/-- Go: `strings.TrimSuffix(s, suffix)`. -/
def trimSuffix (s suffix : String) : String :=
  if suffixCheck suffix.toList s.toList then
    String.mk (s.toList.take (s.toList.length - suffix.toList.length))
  else s

/-- Go: `filepath.Join(dir, name)` for a nonempty `dir` and a plain file
name (`filepath.Join` additionally runs `Clean`, which is the identity on
the already-clean paths the handler builds). -/
def filepathJoin (dir name : String) : String :=
  if dir = "" then name else dir ++ "/" ++ name

/-! ## FileHandler (src/unnamed/part_011) -/

/-- Go: `type RotationInterval int` with constants
`RotationNone` .. `RotationMonthly`. -/
inductive RotationInterval where
  | RotationNone
  | RotationHourly
  | RotationDaily
  | RotationWeekly
  | RotationMonthly
deriving Repr, DecidableEq

structure FileHandler where
  /-- the `color` flag of `h.formatter` (`NewTextFormatter(false)`) -/
  color : Bool
  level : Level
  /-- whether `h.out` is non-nil (an open `*os.File`) -/
  outOpen : Bool
  logDir : String
  filename : String
  rotation : RotationInterval
  /-- `h.rotationTime`; `none` is the `time.Time` zero value (`IsZero`) -/
  rotationTime : Option Nat
  filePath : String
  /-- pending messages of the buffered channel `h.ch`, FIFO -/
  ch : List String
  /-- whether `close(h.ch)` has been executed -/
  chClosed : Bool
  /-- whether `close(h.closed)` has been executed (`h.close()`) -/
  closedSig : Bool
  /-- ordered messages written through `h.Write` -/
  sink : List String
  nextRotationTime : Nat
deriving Repr, DecidableEq

/-- Go: `func (h *FileHandler) calculateNextRotationTime(currentTime
time.Time) time.Time` (src/unnamed/part_011 lines 236-256). -/
def FileHandler.calculateNextRotationTime (h : FileHandler)
    (currentTime : Nat) : Nat :=
  match h.rotation with
  | .RotationHourly =>
    currentTime / secsPerHour * secsPerHour + secsPerHour
  | .RotationDaily =>
    currentTime / secsPerDay * secsPerDay + secsPerDay
  | .RotationWeekly =>
    startOfWeek currentTime + 7 * secsPerDay
  | .RotationMonthly =>
    let som := startOfMonth currentTime
    let ymd := civilFromDays (epochDays som)
    if ymd.2.1 = 12 then daysFromCivil (ymd.1 + 1) 1 1 * secsPerDay
    else daysFromCivil ymd.1 (ymd.2.1 + 1) 1 * secsPerDay
  | .RotationNone =>
    addYears100 currentTime

/-- Go: `func (h *FileHandler) formatFilename(now time.Time) string`
(src/unnamed/part_011 lines 320-347). -/
def FileHandler.formatFilename (h : FileHandler) (now : Nat) : String :=
  if h.rotation = .RotationNone then h.filename
  else
    let ext := filepathExt h.filename
    let base := trimSuffix h.filename ext
    let timestamp :=
      match h.rotation with
      | .RotationHourly => formatDateHour now
      | .RotationDaily => formatDate now
      | .RotationWeekly =>
        let yw := isoWeek now
        toString yw.1 ++ "-W" ++ pad2 yw.2
      | .RotationMonthly => formatYearMonth now
      | .RotationNone => formatDateTimeFull now
    base ++ "_" ++ timestamp ++ ext

/-- Go: `func (h *FileHandler) openFile(now time.Time) error`
(src/unnamed/part_011 lines 298-317); the `os.OpenFile` error path is
modelled as success. -/
def FileHandler.openFile (h : FileHandler) (now : Nat) : FileHandler :=
  let filename := h.formatFilename now
  let filePath := filepathJoin h.logDir filename
  let h := { h with filePath := filePath, outOpen := true,
                    rotationTime := some now }
  { h with nextRotationTime := h.calculateNextRotationTime now }

/-- Go: `func (h *FileHandler) openFileIfNull(now time.Time) error`
(src/unnamed/part_011 lines 284-294). -/
def FileHandler.openFileIfNull (h : FileHandler) (now : Nat) : FileHandler :=
  if h.outOpen then h else h.openFile now

/-- Go: `func (h *FileHandler) rotate(now time.Time) error`
(src/unnamed/part_011 lines 259-281): close the open file, open the new
one, recompute `nextRotationTime`. -/
def FileHandler.rotate (h : FileHandler) (now : Nat) : FileHandler :=
  let h := h.openFile now
  { h with nextRotationTime := h.calculateNextRotationTime now }

/-- Go: `func (h *FileHandler) tryRotate(now time.Time) error`
(src/unnamed/part_011 lines 220-233). -/
def FileHandler.tryRotate (h : FileHandler) (now : Nat) : FileHandler :=
  if h.rotation = .RotationNone ∨ h.rotationTime = none then
    h.openFileIfNull now
  else if h.nextRotationTime < now then
    h.rotate now
  else h

/-- Go: `type FileHandlerConfig struct` (src/unnamed/part_011
lines 55-64). -/
structure FileHandlerConfig where
  LogDir : String
  Filename : String
  Rotation : RotationInterval
  Level : PkgLog.Level
deriving Repr, DecidableEq

/-- Go: `func NewFileHandler(config FileHandlerConfig) (*FileHandler,
error)` (src/unnamed/part_011 lines 67-100); `now` is the call-time
`time.Now()` of the initial `tryRotate`, and the `os.MkdirAll` error path
is modelled as success. -/
def NewFileHandler (config : FileHandlerConfig) (now : Nat) : FileHandler :=
  let logDir := if config.LogDir = "" then "./logs" else config.LogDir
  let filename := if config.Filename = "" then "app.log" else config.Filename
  let level := if config.Level = 0 then InfoLevel else config.Level
  let handler : FileHandler :=
    { color := false   -- NewTextFormatter(false): no color for files
      level := level
      outOpen := false
      logDir := logDir
      filename := filename
      rotation := config.Rotation
      rotationTime := none
      filePath := ""
      ch := []
      chClosed := false
      closedSig := false
      sink := []
      nextRotationTime := 0 }
  handler.tryRotate now

/-- The `select` of `FileHandler.Output` (src/unnamed/part_011
lines 142-147), identical in structure to the console one. -/
def fileSelectSend (h : FileHandler) (msg : String) (pickSend : Bool) :
    OutputResult FileHandler :=
  let sendReady := h.chClosed || decide (h.ch.length < chCap)
  let recvReady := h.closedSig
  if sendReady && recvReady then
    if pickSend then
      if h.chClosed then .panicked
      else .enqueued { h with ch := h.ch ++ [msg] }
    else .droppedClosed
  else if sendReady then
    if h.chClosed then .panicked
    else .enqueued { h with ch := h.ch ++ [msg] }
  else if recvReady then .droppedClosed
  else .blocked

/-- Go: `func (h *FileHandler) Output(level, ctx, format, args...)`
(src/unnamed/part_011 lines 131-148). -/
def FileHandler.output (h : FileHandler) (now : String) (level : Level)
    (logID : String) (format : String) (args : List String)
    (pickSend : Bool) : OutputResult FileHandler :=
  if level < h.level then .filtered
  else
    let msg := (NewTextFormatter h.color).format now level logID format args
    fileSelectSend h msg pickSend

/-- The drain performed by the `serve` range loop (src/unnamed/part_011
lines 195-208): for each remaining queued message, `tryRotate(time.Now())`
then write; `nowT` is the drain-time clock value. -/
def FileHandler.drainServe (h : FileHandler) (msgs : List String)
    (nowT : Nat) : FileHandler :=
  match msgs with
  | [] => h
  | m :: rest =>
    let h := h.tryRotate nowT
    FileHandler.drainServe { h with sink := h.sink ++ [m] } rest nowT

/-- Go: `func (h *FileHandler) Close() error` (src/unnamed/part_011
lines 181-192): `close(h.ch)` — a panic if already closed — then `Flush`,
waiting on `<-h.closed`, and closing the open `*os.File`.  The returned
`Option String` is the Go error (`none` = `nil`).  Like the console
version, this captures the schedule in which the queue is fully drained
before `Close` returns and is used below only for the double-close panic
and the post-close flag state; the general interleaving of the concurrent
`Flush` and `serve` consumers — under which a pending `serve` write can
race the `file.Close()` — is modelled by `CloseRace` further down. -/
def FileHandler.closeHandler (h : FileHandler) (nowT : Nat) :
    GoResult (FileHandler × Option String) :=
  if h.chClosed then .panic "close of closed channel"
  else
    let h := { h with chClosed := true }
    let h := h.drainServe h.ch nowT
    .ok ({ h with ch := [], closedSig := true, outOpen := false }, none)

/-! ## baseLogger fan-out Close and MultiError (src/log/logger.go) -/

/-- Go: `type MultiError struct { Errors []error }`
(src/log/logger.go lines 246-249); errors are modelled as strings. -/
structure MultiError where
  Errors : List String
deriving Repr, DecidableEq

/-- Go: `func (m *MultiError) Error() string`
(src/log/logger.go lines 251-256). -/
def MultiError.error (m : MultiError) : String :=
  if m.Errors.length = 0 then "no errors"
  else "multiple errors occurred while closing handlers"

/-- Abstract view of a registered handler as seen by the fan-out `Close`
loop: the error its own `Close()` returns (`none` = `nil`) and whether
`Close()` has been invoked on it. -/
structure FanoutHandler where
  closeErr : Option String
  closeCalled : Bool
deriving Repr, DecidableEq

/-- One `handler.Close()` call of the `baseLogger.Close` loop. -/
def FanoutHandler.closeCall (h : FanoutHandler) :
    FanoutHandler × Option String :=
  ({ h with closeCalled := true }, h.closeErr)

/-- The `for _, handler := range l.handlers` loop of `baseLogger.Close`
(src/log/logger.go lines 129-134): every handler is closed in order and
each non-nil error is appended to `errors`. -/
def closeAllLoop : List FanoutHandler → List FanoutHandler × List String
  | [] => ([], [])
  | h :: rest =>
    let c := h.closeCall
    let r := closeAllLoop rest
    (c.1 :: r.1, match c.2 with
                 | some err => err :: r.2
                 | none => r.2)

/-- Go: `func (l *baseLogger) Close() error`
(src/log/logger.go lines 125-140); returns the handlers after the loop and
the aggregated result (`none` = `nil`). -/
def baseLoggerClose (handlers : List FanoutHandler) :
    List FanoutHandler × Option MultiError :=
  let r := closeAllLoop handlers
  if 0 < r.2.length then (r.1, some ⟨r.2⟩) else (r.1, none)

/-! ## Single-goroutine submission sequences (for the FIFO property) -/

/-- The arguments of one `Output` call: the call-time RFC3339 timestamp,
the level, the context's `log_id` (`""` when absent), and the message
template with its (string) arguments. -/
structure Submission where
  now : String
  level : Level
  logID : String
  format : String
  args : List String
deriving Repr, DecidableEq

/-- The formatted message a handler with color flag `c` enqueues for a
submission. -/
def renderMsg (c : Bool) (s : Submission) : String :=
  (NewTextFormatter c).format s.now s.level s.logID s.format s.args

/-- Submissions that pass the threshold check `level < h.level` of
`Output`. -/
def acceptedSubs (threshold : Level) (l : List Submission) : List Submission :=
  l.filter (fun s => decide (threshold ≤ s.level))

/-- One `Output` call from the single submitting goroutine (the `select`
send case is the one taken while the handler is open). -/
def ConsoleHandler.submit (h : ConsoleHandler) (s : Submission) :
    ConsoleHandler :=
  match h.output s.now s.level s.logID s.format s.args true with
  | .enqueued h' => h'
  | _ => h

/-- A sequence of `Output` calls from a single goroutine. -/
def ConsoleHandler.submitAll (h : ConsoleHandler) (l : List Submission) :
    ConsoleHandler :=
  l.foldl ConsoleHandler.submit h

/-- One `Output` call from the single submitting goroutine (FileHandler). -/
def FileHandler.submit (h : FileHandler) (s : Submission) : FileHandler :=
  match h.output s.now s.level s.logID s.format s.args true with
  | .enqueued h' => h'
  | _ => h

/-- A sequence of `Output` calls from a single goroutine (FileHandler). -/
def FileHandler.submitAll (h : FileHandler) (l : List Submission) :
    FileHandler :=
  l.foldl FileHandler.submit h

/-! ## The close-drain race

(src/log/console.go lines 96-134, src/unnamed/part_011 lines 161-215.)
`Close()` runs `close(h.ch)` and then calls `Flush()` in the caller's
goroutine while the `serve` goroutine is still running: two concurrent
consumers race on the closed channel, and each receive and each `Write`
is a separate atomic step (the writes share a read-lock, which does not
order them).  `Flush`'s `ok == false` branch runs `h.close()` itself, so
`Close` can return — and `FileHandler.Close` can then close the
`*os.File` — while `serve` still holds a received-but-unwritten message.
A schedule is the sequence of which goroutine takes the next atomic
step. -/

/-- Position of the `serve` goroutine within its `for msg := range h.ch`
loop during the close-drain phase: about to receive, holding a received
but unwritten message, or exited (after running `h.close()`). -/
inductive ServePC where
  | receiving
  | writing (msg : String)
  | exited
deriving Repr, DecidableEq

/-- Position of the goroutine executing `Close()` after its `close(h.ch)`:
inside the bounded `Flush` loop (`i` iterations left), about to write a
received message, waiting on `<-h.closed`, at the `FileHandler`'s final
`file.Close()`, or returned from `Close`. -/
inductive CloserPC where
  | flushing (i : Nat)
  | flushWrite (msg : String) (i : Nat)
  | waiting
  | fileClose
  | done
deriving Repr, DecidableEq

/-- Interleaved state of the close-drain phase, entered right after
`Close()` executed `close(h.ch)`.  `isFile` selects `FileHandler` write
semantics: once the `*os.File` has been closed, `h.Write` fails, the error
goes to stderr and the message is recorded in `lost` instead of the file
(`sink`).  `serve`'s per-message `tryRotate` is omitted here: for the
`RotationNone` configuration exercised by the claims it is the identity on
an open file (see `FileHandler.tryRotate_none_id`). -/
structure CloseRace where
  isFile : Bool
  ch : List String
  closedSig : Bool
  fileOpen : Bool
  sink : List String
  lost : List String
  spc : ServePC
  cpc : CloserPC
deriving Repr, DecidableEq

/-- One `h.Write(msg)` under the shared read-lock: the message is appended
to the sink, except that a `FileHandler` write after `file.Close()` fails
(src/unnamed/part_011 lines 151-159 and 203-205: the error is printed to
stderr and the message is dropped). -/
def CloseRace.write (s : CloseRace) (m : String) : CloseRace :=
  if s.isFile && !s.fileOpen then { s with lost := s.lost ++ [m] }
  else { s with sink := s.sink ++ [m] }

/-- One atomic step of the `serve` goroutine (src/log/console.go lines
127-134, src/unnamed/part_011 lines 195-208): receive the next message, or
— the channel being closed and empty — leave the range loop and run
`h.close()`; a held message is written in a separate step. -/
def CloseRace.serveStep (s : CloseRace) : CloseRace :=
  match s.spc with
  | .receiving =>
    match s.ch with
    | m :: rest => { s with ch := rest, spc := .writing m }
    | [] => { s with closedSig := true, spc := .exited }
  | .writing m => { s.write m with spc := .receiving }
  | .exited => s

/-- One atomic step of the goroutine inside `Close()` (src/log/console.go
lines 96-124, src/unnamed/part_011 lines 161-192): each `Flush` iteration
receives from the closed channel — a message, written in a separate step,
or `ok == false` on the empty closed channel, which runs `h.close()` and
leaves `Flush` — then `Close` waits on `<-h.closed`, a `FileHandler`
closes its `*os.File`, and `Close` returns. -/
def CloseRace.closerStep (s : CloseRace) : CloseRace :=
  match s.cpc with
  | .flushing i =>
    match i, s.ch with
    | 0, _ => { s with cpc := .waiting }
    | Nat.succ j, m :: rest => { s with ch := rest, cpc := .flushWrite m j }
    | Nat.succ _, [] => { s with closedSig := true, cpc := .waiting }
  | .flushWrite m i => { s.write m with cpc := .flushing i }
  | .waiting =>
    if s.closedSig then
      if s.isFile then { s with cpc := .fileClose }
      else { s with cpc := .done }
    else s
  | .fileClose => { s with fileOpen := false, cpc := .done }
  | .done => s

/-- Run a schedule: `true` steps the `serve` goroutine, `false` the
goroutine inside `Close()`. -/
def runSchedule (s : CloseRace) : List Bool → CloseRace
  | [] => s
  | g :: rest => runSchedule (if g then s.serveStep else s.closerStep) rest

/-- The state right after `Close()` ran `close(h.ch)` on a console handler
whose `serve` goroutine is blocked receiving. -/
def ConsoleHandler.closeStart (h : ConsoleHandler) : CloseRace :=
  { isFile := false
    ch := h.ch
    closedSig := h.closedSig
    fileOpen := true
    sink := h.sink
    lost := []
    spc := .receiving
    cpc := .flushing chCap }

/-- The state right after `Close()` ran `close(h.ch)` on a file handler
whose `serve` goroutine is blocked receiving. -/
def FileHandler.closeStart (h : FileHandler) : CloseRace :=
  { isFile := true
    ch := h.ch
    closedSig := h.closedSig
    fileOpen := h.outOpen
    sink := h.sink
    lost := []
    spc := .receiving
    cpc := .flushing chCap }

/-! ## Shared lemmas -/

theorem FileHandler.tryRotate_queueFields (h : FileHandler) (now : Nat) :
    (h.tryRotate now).sink = h.sink ∧ (h.tryRotate now).ch = h.ch ∧
    (h.tryRotate now).chClosed = h.chClosed ∧
    (h.tryRotate now).closedSig = h.closedSig ∧
    (h.tryRotate now).level = h.level ∧
    (h.tryRotate now).color = h.color ∧
    (h.tryRotate now).rotation = h.rotation ∧
    (h.tryRotate now).filename = h.filename ∧
    (h.tryRotate now).logDir = h.logDir := by
  rw [FileHandler.tryRotate]
  split
  · rw [FileHandler.openFileIfNull]
    split
    · exact ⟨rfl, rfl, rfl, rfl, rfl, rfl, rfl, rfl, rfl⟩
    · exact ⟨rfl, rfl, rfl, rfl, rfl, rfl, rfl, rfl, rfl⟩
  · split
    · exact ⟨rfl, rfl, rfl, rfl, rfl, rfl, rfl, rfl, rfl⟩
    · exact ⟨rfl, rfl, rfl, rfl, rfl, rfl, rfl, rfl, rfl⟩

/-! ## C1: no loss before close (code bug)

`Close()`'s `Flush` races the `serve` goroutine on the closed channel.
`Flush`'s `ok == false` branch runs `h.close()`, so `Close` can return —
and `FileHandler.Close` then closes the `*os.File` — while `serve` still
holds a received-but-unwritten message; `serve`'s pending `Write` fails on
the closed file and the message, though enqueued before `Close`, never
reaches the file. -/

/-- C1 (evaluated at the failing input): the close-drain race can lose a
message that was successfully enqueued before `Close()`.  One message is
enqueued through `Output` on a `RotationNone` `FileHandler`; in the
schedule where `serve` receives it and is preempted before its `Write`,
`Close`'s `Flush` finds the closed channel empty and runs `h.close()`, so
`Close` returns and closes the `*os.File`; `serve`'s pending write then
fails and the message ends on stderr (`lost`), never in the file
(`sink`). -/
theorem claim_C1_close_can_lose_message :
    (FileHandler.submitAll (NewFileHandler
        ⟨"logs", "app.log", .RotationNone, InfoLevel⟩ 1761469200)
        [⟨"t1", InfoLevel, "", "m1", []⟩]).ch
      = [renderMsg false ⟨"t1", InfoLevel, "", "m1", []⟩] ∧
    ∃ sched : List Bool,
      runSchedule (FileHandler.closeStart (FileHandler.submitAll
          (NewFileHandler ⟨"logs", "app.log", .RotationNone, InfoLevel⟩
            1761469200) [⟨"t1", InfoLevel, "", "m1", []⟩])) sched
        = { isFile := true
            ch := []
            closedSig := true
            fileOpen := false
            sink := []
            lost := [renderMsg false ⟨"t1", InfoLevel, "", "m1", []⟩]
            spc := .exited
            cpc := .done } :=
  ⟨rfl, [true, false, false, false, true, true], rfl⟩

/-! ## C2: close is not idempotent (code bug)

`Close()` runs `close(h.ch)` unguarded; the `sync.Once` (`closeOnce`) only
guards `close(h.closed)` inside `h.close()`.  A second `Close()` call
therefore panics with Go's "close of closed channel". -/

/-- C2 (evaluated at the failing input): calling `Close()` a second time
on a freshly constructed `ConsoleHandler` or `FileHandler` panics with
"close of closed channel" instead of being idempotent. -/
theorem claim_C2_double_close_panics :
    (∃ h1, (NewConsoleHandler InfoLevel).closeHandler = .ok h1 ∧
      h1.closeHandler = .panic "close of closed channel") ∧
    (∃ h2 e, (NewFileHandler ⟨"logs", "app.log", .RotationNone, InfoLevel⟩
        1761469200).closeHandler 1761469200 = .ok (h2, e) ∧
      h2.closeHandler 1761469201 = .panic "close of closed channel") :=
  ⟨⟨_, rfl, rfl⟩, ⟨_, none, rfl, rfl⟩⟩

/-! ## C3: Output after Close may panic (code bug)

After `Close()` returns, both `select` cases of `Output` are ready: the
send on the closed `h.ch` (a ready case that panics when taken) and the
receive on the closed `h.closed` (which drops the message, as the code's
comment intends).  Go's `select` picks between ready cases at random, so
an `Output` call after `Close()` panics with "send on closed channel"
whenever the runtime picks the send case. -/

/-- C3 (evaluated at the failing input): an `Output` call strictly after
`Close()` has returned panics when the scheduler picks the `select`'s send
case (`pickSend = true`), and only drops the message on the other choice. -/
theorem claim_C3_output_after_close_may_panic :
    (∃ h1, (NewConsoleHandler InfoLevel).closeHandler = .ok h1 ∧
      h1.output "2025-10-26T09:00:00Z" InfoLevel "" "late message" [] true
        = .panicked ∧
      h1.output "2025-10-26T09:00:00Z" InfoLevel "" "late message" [] false
        = .droppedClosed) ∧
    (∃ h2 e, (NewFileHandler ⟨"logs", "app.log", .RotationNone, InfoLevel⟩
        1761469200).closeHandler 1761469200 = .ok (h2, e) ∧
      h2.output "2025-10-26T09:00:01Z" InfoLevel "" "late message" [] true
        = .panicked ∧
      h2.output "2025-10-26T09:00:01Z" InfoLevel "" "late message" [] false
        = .droppedClosed) :=
  ⟨⟨_, rfl, rfl, rfl⟩, ⟨_, none, rfl, rfl, rfl⟩⟩

/-! ## C4: FIFO per handler (code bug)

During `Close()`, `Flush` in the closing goroutine and the `serve`
goroutine are two concurrent consumers of `h.ch`; their `h.Write` calls
run under a shared read-lock with no mutual ordering, so the writes of two
messages received by different consumers can land in the sink in either
order. -/

/-- C4 (evaluated at the failing input): two messages enqueued in order by
a single goroutine through `Output` can reach the sink in the opposite
order.  In the exhibited schedule `serve` receives the first message and
is preempted before its `Write`; `Close`'s `Flush` receives and writes the
second; `serve` then writes the first — the sink order is second, first,
violating FIFO. -/
theorem claim_C4_fifo_broken_by_flush_race :
    ((NewConsoleHandler InfoLevel).submitAll
        [⟨"t1", InfoLevel, "", "m1", []⟩, ⟨"t2", InfoLevel, "", "m2", []⟩]).ch
      = [renderMsg true ⟨"t1", InfoLevel, "", "m1", []⟩,
         renderMsg true ⟨"t2", InfoLevel, "", "m2", []⟩] ∧
    ∃ sched : List Bool,
      runSchedule (ConsoleHandler.closeStart
          ((NewConsoleHandler InfoLevel).submitAll
            [⟨"t1", InfoLevel, "", "m1", []⟩,
             ⟨"t2", InfoLevel, "", "m2", []⟩])) sched
        = { isFile := false
            ch := []
            closedSig := true
            fileOpen := true
            sink := [renderMsg true ⟨"t2", InfoLevel, "", "m2", []⟩,
                     renderMsg true ⟨"t1", InfoLevel, "", "m1", []⟩]
            lost := []
            spc := .exited
            cpc := .done } ∧
      renderMsg true ⟨"t2", InfoLevel, "", "m2", []⟩
        ≠ renderMsg true ⟨"t1", InfoLevel, "", "m1", []⟩ :=
  ⟨rfl, [true, false, false, true, true, false, false], rfl, by decide⟩

/-! ## C5: daily rotation boundary -/

/-- C5 (daily rotation boundary): for a `FileHandler` with `RotationDaily`
whose file was opened at 2025-10-26 09:00 UTC (epoch 1761469200), the
per-write rotation check at 2025-10-26 23:00 UTC (1761519600) leaves the
handler unchanged — no rotation — while the check at 2025-10-27 00:00:01
UTC (1761523201) rotates: the open time becomes the write time and the
newly opened file's path changes to one embedding `2025-10-27`. -/
theorem claim_C5_daily_rotation_boundary :
    (FileHandler.tryRotate (NewFileHandler
        ⟨"logs", "app.log", .RotationDaily, InfoLevel⟩ 1761469200) 1761519600
      = NewFileHandler ⟨"logs", "app.log", .RotationDaily, InfoLevel⟩
          1761469200) ∧
    ((NewFileHandler ⟨"logs", "app.log", .RotationDaily, InfoLevel⟩
        1761469200).tryRotate 1761523201).rotationTime = some 1761523201 ∧
    ((NewFileHandler ⟨"logs", "app.log", .RotationDaily, InfoLevel⟩
        1761469200).tryRotate 1761523201).filePath
      = "logs/app_2025-10-27.log" ∧
    strContainsSub ((NewFileHandler ⟨"logs", "app.log", .RotationDaily,
        InfoLevel⟩ 1761469200).tryRotate 1761523201).filePath "2025-10-27"
      = true ∧
    ((NewFileHandler ⟨"logs", "app.log", .RotationDaily, InfoLevel⟩
        1761469200).tryRotate 1761523201).filePath
      ≠ (NewFileHandler ⟨"logs", "app.log", .RotationDaily, InfoLevel⟩
          1761469200).filePath :=
  ⟨by decide, by decide, by decide, by decide, by decide⟩

/-! ## C6: level filtering -/

/-- C6 (level filtering): a handler with threshold `h.level` drops (before
formatting or enqueueing) every message submitted at a level strictly below
the threshold, and accepts for delivery — enqueues the formatted message —
every message at a level greater than or equal to the threshold, for both
`ConsoleHandler` and `FileHandler` while the handler is open with channel
room. -/
theorem claim_C6_level_filtering
    (hc : ConsoleHandler) (hf : FileHandler) (L : Level)
    (now logID fmtStr : String) (args : List String) (pick : Bool)
    (hcO : hc.chClosed = false) (hcS : hc.closedSig = false)
    (hcR : hc.ch.length < chCap)
    (hfO : hf.chClosed = false) (hfS : hf.closedSig = false)
    (hfR : hf.ch.length < chCap) :
    (L < hc.level → hc.output now L logID fmtStr args pick = .filtered) ∧
    (hc.level ≤ L → hc.output now L logID fmtStr args pick =
      .enqueued { hc with ch := hc.ch
        ++ [renderMsg hc.color ⟨now, L, logID, fmtStr, args⟩] }) ∧
    (L < hf.level → hf.output now L logID fmtStr args pick = .filtered) ∧
    (hf.level ≤ L → hf.output now L logID fmtStr args pick =
      .enqueued { hf with ch := hf.ch
        ++ [renderMsg hf.color ⟨now, L, logID, fmtStr, args⟩] }) := by
  refine ⟨?_, ?_, ?_, ?_⟩
  · intro hlt
    simp [ConsoleHandler.output, hlt]
  · intro hle
    simp [ConsoleHandler.output, Nat.not_lt.mpr hle, selectSend,
      hcO, hcS, hcR, renderMsg]
  · intro hlt
    simp [FileHandler.output, hlt]
  · intro hle
    simp [FileHandler.output, Nat.not_lt.mpr hle, fileSelectSend,
      hfO, hfS, hfR, renderMsg]

/-- Witness for C6 at concrete open handlers with an Info threshold: a
Debug-level submission is filtered and a Warn-level one is enqueued. -/
theorem claim_C6_witness :
    (NewConsoleHandler InfoLevel).output "t" DebugLevel "" "m" [] true
      = .filtered ∧
    (NewConsoleHandler InfoLevel).output "t" WarnLevel "" "m" [] true
      = .enqueued { NewConsoleHandler InfoLevel with
          ch := [renderMsg true ⟨"t", WarnLevel, "", "m", []⟩] } ∧
    (NewFileHandler ⟨"logs", "app.log", .RotationNone, InfoLevel⟩
      1761469200).output "t" DebugLevel "" "m" [] true = .filtered ∧
    (NewFileHandler ⟨"logs", "app.log", .RotationNone, InfoLevel⟩
      1761469200).output "t" WarnLevel "" "m" [] true
      = .enqueued { NewFileHandler
          ⟨"logs", "app.log", .RotationNone, InfoLevel⟩ 1761469200 with
          ch := [renderMsg false ⟨"t", WarnLevel, "", "m", []⟩] } :=
  ⟨(claim_C6_level_filtering (NewConsoleHandler InfoLevel)
      (NewFileHandler ⟨"logs", "app.log", .RotationNone, InfoLevel⟩
        1761469200) DebugLevel "t" "" "m" [] true
      rfl rfl (by decide) rfl rfl (by decide)).1 (by decide),
   (claim_C6_level_filtering (NewConsoleHandler InfoLevel)
      (NewFileHandler ⟨"logs", "app.log", .RotationNone, InfoLevel⟩
        1761469200) WarnLevel "t" "" "m" [] true
      rfl rfl (by decide) rfl rfl (by decide)).2.1 (by decide),
   (claim_C6_level_filtering (NewConsoleHandler InfoLevel)
      (NewFileHandler ⟨"logs", "app.log", .RotationNone, InfoLevel⟩
        1761469200) DebugLevel "t" "" "m" [] true
      rfl rfl (by decide) rfl rfl (by decide)).2.2.1 (by decide),
   (claim_C6_level_filtering (NewConsoleHandler InfoLevel)
      (NewFileHandler ⟨"logs", "app.log", .RotationNone, InfoLevel⟩
        1761469200) WarnLevel "t" "" "m" [] true
      rfl rfl (by decide) rfl rfl (by decide)).2.2.2 (by decide)⟩

/-! ## C7: RotationNone invariant -/

theorem FileHandler.tryRotate_none_id (h : FileHandler) (t : Nat)
    (h1 : h.rotation = .RotationNone) (h2 : h.outOpen = true) :
    h.tryRotate t = h := by
  simp [FileHandler.tryRotate, FileHandler.openFileIfNull, h1, h2]

theorem foldl_tryRotate_id (times : List Nat) (h : FileHandler)
    (h1 : h.rotation = .RotationNone) (h2 : h.outOpen = true) :
    times.foldl FileHandler.tryRotate h = h := by
  induction times with
  | nil => rfl
  | cons t rest ih =>
    rw [List.foldl_cons, FileHandler.tryRotate_none_id h t h1 h2]
    exact ih

/-- C7 (RotationNone invariant): a `FileHandler` built with `RotationNone`
opens its file at construction and any number of later per-write rotation
checks, at arbitrary times, leave the handler — in particular the open
file and its path — unchanged; the path is the configured directory joined
with the configured base filename unmodified, and `formatFilename` returns
the base filename unmodified at every time. -/
theorem claim_C7_rotation_none_invariant
    (cfg : FileHandlerConfig) (t0 : Nat) (times : List Nat)
    (hrot : cfg.Rotation = .RotationNone) (hfn : cfg.Filename ≠ "") :
    times.foldl FileHandler.tryRotate (NewFileHandler cfg t0)
      = NewFileHandler cfg t0 ∧
    (NewFileHandler cfg t0).outOpen = true ∧
    (NewFileHandler cfg t0).filePath
      = filepathJoin (if cfg.LogDir = "" then "./logs" else cfg.LogDir)
          cfg.Filename ∧
    ∀ t, (NewFileHandler cfg t0).formatFilename t = cfg.Filename := by
  have hopen : (NewFileHandler cfg t0).outOpen = true := by
    simp [NewFileHandler, FileHandler.tryRotate, FileHandler.openFileIfNull,
      FileHandler.openFile, hrot]
  have hrot0 : (NewFileHandler cfg t0).rotation = .RotationNone := by
    simp [NewFileHandler, FileHandler.tryRotate, FileHandler.openFileIfNull,
      FileHandler.openFile, hrot]
  have hfile : (NewFileHandler cfg t0).filename = cfg.Filename := by
    simp [NewFileHandler, FileHandler.tryRotate, FileHandler.openFileIfNull,
      FileHandler.openFile, hrot, hfn]
  have hpath : (NewFileHandler cfg t0).filePath
      = filepathJoin (if cfg.LogDir = "" then "./logs" else cfg.LogDir)
          cfg.Filename := by
    simp [NewFileHandler, FileHandler.tryRotate, FileHandler.openFileIfNull,
      FileHandler.openFile, FileHandler.formatFilename, hrot, hfn]
  refine ⟨foldl_tryRotate_id times _ hrot0 hopen, hopen, hpath, ?_⟩
  intro t
  simp [FileHandler.formatFilename, hrot0, hfile]

/-- Witness for C7 at a concrete configuration and three write times
spanning several simulated days. -/
theorem claim_C7_witness :
    [1761519600, 1761523201, 1893456000].foldl FileHandler.tryRotate
        (NewFileHandler ⟨"logs", "app.log", .RotationNone, InfoLevel⟩
          1761469200)
      = NewFileHandler ⟨"logs", "app.log", .RotationNone, InfoLevel⟩
          1761469200 ∧
    (NewFileHandler ⟨"logs", "app.log", .RotationNone, InfoLevel⟩
      1761469200).outOpen = true ∧
    (NewFileHandler ⟨"logs", "app.log", .RotationNone, InfoLevel⟩
      1761469200).filePath
      = filepathJoin (if "logs" = "" then "./logs" else "logs") "app.log" ∧
    ∀ t, (NewFileHandler ⟨"logs", "app.log", .RotationNone, InfoLevel⟩
      1761469200).formatFilename t = "app.log" :=
  claim_C7_rotation_none_invariant
    ⟨"logs", "app.log", .RotationNone, InfoLevel⟩ 1761469200
    [1761519600, 1761523201, 1893456000] rfl (by decide)

/-! ## C8: formatter round-trip

`Level.String()` renders `InfoLevel` as `"Info"`, not `"INFO"`, so the
output of `Format(InfoLevel, ctxWithID "req-42", "hello %s", "world")`
contains `Info` but not the claimed substring `INFO`. -/

/-- C8 counterexample: at the concrete timestamp `2025-10-26T09:00:00Z`
(and the file formatter, color off), the formatter output does not contain
the substring `INFO`, so the claim as stated fails. -/
theorem claim_C8_counterexample :
    ¬ (strContainsSub ((NewTextFormatter false).format "2025-10-26T09:00:00Z"
        InfoLevel "req-42" "hello %s" ["world"]) "INFO" = true ∧
      strContainsSub ((NewTextFormatter false).format "2025-10-26T09:00:00Z"
        InfoLevel "req-42" "hello %s" ["world"]) "req-42" = true ∧
      strContainsSub ((NewTextFormatter false).format "2025-10-26T09:00:00Z"
        InfoLevel "req-42" "hello %s" ["world"]) "hello world" = true ∧
      ∃ p, (NewTextFormatter false).format "2025-10-26T09:00:00Z"
        InfoLevel "req-42" "hello %s" ["world"] = p ++ "\n") :=
  fun h => absurd h.1 (by decide)

theorem infix_skip (a : List Char) {sub L : List Char} (h : sub <:+: L) :
    sub <:+: a ++ L :=
  h.trans (List.IsSuffix.isInfix (List.suffix_append a L))

theorem infix_cons_skip (c : Char) {sub L : List Char} (h : sub <:+: L) :
    sub <:+: c :: L :=
  h.trans (List.IsSuffix.isInfix (List.suffix_cons c L))

/-- C8 amended: for either color setting and every call-time timestamp,
`Format(InfoLevel, ctxWithID "req-42", "hello %s", "world")` produces a
string that contains the substring `Info` (the level name as rendered by
`Level.String`), the substring `req-42`, and the substring `hello world`,
and is terminated by a newline. -/
theorem claim_C8_amended_format_round_trip (c : Bool) (now : String) :
    ("Info".toList <:+: ((NewTextFormatter c).format now InfoLevel "req-42"
      "hello %s" ["world"]).toList) ∧
    ("req-42".toList <:+: ((NewTextFormatter c).format now InfoLevel "req-42"
      "hello %s" ["world"]).toList) ∧
    ("hello world".toList <:+: ((NewTextFormatter c).format now InfoLevel
      "req-42" "hello %s" ["world"]).toList) ∧
    (∃ p, (NewTextFormatter c).format now InfoLevel "req-42" "hello %s"
      ["world"] = p ++ "\n") := by
  cases c
  · refine ⟨?_, ?_, ?_, ⟨_, rfl⟩⟩ <;>
    · simp [TextFormatter.format, NewTextFormatter, String.toList,
        String.data_append, List.append_assoc, Level.string, InfoLevel,
        TraceLevel, DebugLevel, sprintf, sprintfAux]
      exact infix_skip _ (by decide)
  · refine ⟨?_, ?_, ?_, ⟨_, rfl⟩⟩ <;>
    · simp [TextFormatter.format, NewTextFormatter, String.toList,
        String.data_append, List.append_assoc, Level.string, Level.color,
        InfoLevel, TraceLevel, DebugLevel, sprintf, sprintfAux]
      exact infix_cons_skip _ (infix_cons_skip _ (infix_cons_skip _
        (infix_cons_skip _ (infix_cons_skip _ (infix_cons_skip _
        (infix_cons_skip _ (infix_skip _ (infix_cons_skip _
        (infix_skip _ (by decide))))))))))

/-- Witness for the amended C8 at a concrete color flag and timestamp. -/
theorem claim_C8_witness :
    ("Info".toList <:+: ((NewTextFormatter false).format
      "2025-10-26T09:00:00Z" InfoLevel "req-42" "hello %s"
      ["world"]).toList) ∧
    ("req-42".toList <:+: ((NewTextFormatter false).format
      "2025-10-26T09:00:00Z" InfoLevel "req-42" "hello %s"
      ["world"]).toList) ∧
    ("hello world".toList <:+: ((NewTextFormatter false).format
      "2025-10-26T09:00:00Z" InfoLevel "req-42" "hello %s"
      ["world"]).toList) ∧
    (∃ p, (NewTextFormatter false).format "2025-10-26T09:00:00Z" InfoLevel
      "req-42" "hello %s" ["world"] = p ++ "\n") :=
  claim_C8_amended_format_round_trip false "2025-10-26T09:00:00Z"

/-! ## C9: multi-handler close aggregation -/

theorem closeAllLoop_spec (hs : List FanoutHandler) :
    (closeAllLoop hs).1 = hs.map (fun h => { h with closeCalled := true }) ∧
    (closeAllLoop hs).2 = hs.filterMap FanoutHandler.closeErr := by
  induction hs with
  | nil => exact ⟨rfl, rfl⟩
  | cons h rest ih =>
    cases hE : h.closeErr <;>
      simp [closeAllLoop, FanoutHandler.closeCall, hE, ih.1, ih.2,
        List.filterMap_cons]

/-- C9 (multi-handler close aggregation): `baseLogger.Close` invokes
`Close` on every registered handler — also those after a failing one —
collects all per-handler errors into a single `MultiError` exposing the
full list (returning `nil` when there were none), and `MultiError.Error`
on an empty error list renders `"no errors"`. -/
theorem claim_C9_close_aggregation (handlers : List FanoutHandler) :
    (∀ h ∈ (baseLoggerClose handlers).1, h.closeCalled = true) ∧
    (handlers.filterMap FanoutHandler.closeErr ≠ [] →
      (baseLoggerClose handlers).2
        = some ⟨handlers.filterMap FanoutHandler.closeErr⟩) ∧
    (handlers.filterMap FanoutHandler.closeErr = [] →
      (baseLoggerClose handlers).2 = none) ∧
    MultiError.error ⟨[]⟩ = "no errors" := by
  obtain ⟨h1, h2⟩ := closeAllLoop_spec handlers
  refine ⟨?_, ?_, ?_, rfl⟩
  · intro h hmem
    have hfst : (baseLoggerClose handlers).1 = (closeAllLoop handlers).1 := by
      simp only [baseLoggerClose]
      split <;> rfl
    rw [hfst, h1] at hmem
    obtain ⟨a, -, rfl⟩ := List.mem_map.mp hmem
    rfl
  · intro hne
    have hpos : 0 < (handlers.filterMap FanoutHandler.closeErr).length :=
      List.length_pos.mpr hne
    simp [baseLoggerClose, h2, hpos]
  · intro hnil
    have hz : ¬ 0 < (closeAllLoop handlers).2.length := by
      rw [h2, hnil]
      simp
    simp [baseLoggerClose, hz]

/-- Witness for C9 at a three-handler list whose first and third `Close`
fail: both errors are collected, every handler is closed. -/
theorem claim_C9_witness :
    (∀ h ∈ (baseLoggerClose
        [⟨some "e1", false⟩, ⟨none, false⟩, ⟨some "e2", false⟩]).1,
      h.closeCalled = true) ∧
    (baseLoggerClose
        [⟨some "e1", false⟩, ⟨none, false⟩, ⟨some "e2", false⟩]).2
      = some ⟨["e1", "e2"]⟩ ∧
    MultiError.error ⟨[]⟩ = "no errors" :=
  ⟨(claim_C9_close_aggregation
      [⟨some "e1", false⟩, ⟨none, false⟩, ⟨some "e2", false⟩]).1,
   (claim_C9_close_aggregation
      [⟨some "e1", false⟩, ⟨none, false⟩, ⟨some "e2", false⟩]).2.1
     (by decide),
   (claim_C9_close_aggregation
      [⟨some "e1", false⟩, ⟨none, false⟩, ⟨some "e2", false⟩]).2.2.2⟩

/-! ## C10: zero-valued config level is replaced by InfoLevel -/

/-- C10: `NewFileHandler` silently replaces a zero config level — the
numeric value of `TraceLevel` — by `InfoLevel`, so no `FileHandler`
created through `NewFileHandler` can have a Trace threshold. -/
theorem claim_C10_zero_level_replaced (cfg : FileHandlerConfig) (now : Nat) :
    (cfg.Level = TraceLevel → (NewFileHandler cfg now).level = InfoLevel) ∧
    (NewFileHandler cfg now).level ≠ TraceLevel := by
  have hlev : (NewFileHandler cfg now).level
      = if cfg.Level = 0 then InfoLevel else cfg.Level := by
    show (FileHandler.tryRotate
      { color := false
        level := if cfg.Level = 0 then InfoLevel else cfg.Level
        outOpen := false
        logDir := if cfg.LogDir = "" then "./logs" else cfg.LogDir
        filename := if cfg.Filename = "" then "app.log" else cfg.Filename
        rotation := cfg.Rotation
        rotationTime := none
        filePath := ""
        ch := []
        chClosed := false
        closedSig := false
        sink := []
        nextRotationTime := 0 } now).level
      = if cfg.Level = 0 then InfoLevel else cfg.Level
    exact (FileHandler.tryRotate_queueFields _ now).2.2.2.2.1
  constructor
  · intro h0
    rw [hlev, h0]
    simp [TraceLevel]
  · rw [hlev]
    by_cases hz : cfg.Level = 0
    · simp [hz, InfoLevel, TraceLevel]
    · simp [hz, TraceLevel]

/-- Witness for C10 at a config whose `Level` field is `TraceLevel`. -/
theorem claim_C10_witness :
    (NewFileHandler ⟨"logs", "app.log", .RotationNone, TraceLevel⟩
      1761469200).level = InfoLevel ∧
    (NewFileHandler ⟨"logs", "app.log", .RotationNone, TraceLevel⟩
      1761469200).level ≠ TraceLevel :=
  ⟨(claim_C10_zero_level_replaced
      ⟨"logs", "app.log", .RotationNone, TraceLevel⟩ 1761469200).1 rfl,
   (claim_C10_zero_level_replaced
      ⟨"logs", "app.log", .RotationNone, TraceLevel⟩ 1761469200).2⟩

end PkgLog
